import Mathlib

/-!
Verification of the token-issuance and authentication core of the
`xYz_backend_project` Express/Mongoose backend.

The JavaScript source is shallowly embedded: Mongoose documents become Lean
structures, the persisted collections become lists inside a `Store`, every
stateful service call becomes a pure function from (store, arguments, clock)
to (result, store), and every thrown error message becomes a constructor of a
result inductive.  Timestamps are milliseconds since the epoch as `Nat`
(JWT `iat`/`exp` values are seconds, as in the source).  `bcrypt.compare` is
abstracted as an arbitrary comparison function parameter, so statements about
"the password comparison is not invoked" become statements that a result is
independent of that function.
-/

namespace Backend

/-! String primitives.  The JavaScript string operations the embedded code
uses (`toLowerCase`, `trim`, splitting for the version pattern) are defined
over the character list of a `String`, so that every concrete run of the
model reduces inside the kernel.  The inputs they face here are ASCII. -/

/-- Length of a string, as the length of its character list. -/
def strLen (s : String) : Nat := s.data.length

/-- ASCII `toLowerCase`. -/
def lowerChar (c : Char) : Char :=
  if 'A' ≤ c && c ≤ 'Z' then Char.ofNat (c.toNat + 32) else c

/-- `String.prototype.toLowerCase` (ASCII). -/
def strLower (s : String) : String := String.mk (s.data.map lowerChar)

/-- `String.prototype.trim`: strip leading and trailing whitespace. -/
def strTrim (s : String) : String :=
  String.mk (((s.data.dropWhile Char.isWhitespace).reverse.dropWhile
    Char.isWhitespace).reverse)

/-- Split a character list at every occurrence of `sep`
(`"".split` semantics: the empty list yields one empty chunk). -/
def splitOnChar (sep : Char) : List Char → List (List Char)
  | [] => [[]]
  | c :: cs =>
    let r := splitOnChar sep cs
    if c = sep then [] :: r
    else
      match r with
      | [] => [[c]]
      | h :: t => (c :: h) :: t

/-- An administrator document (`src/models/Admin.js`).  `password` stands for
the stored bcrypt hash; comparison against a candidate password is abstracted
by a function parameter wherever the source calls `comparePassword`.
`lockUntil = none` models a null / unset field. -/
structure Admin where
  id : Nat
  email : String
  password : String
  isActive : Bool
  loginAttempts : Nat
  lockUntil : Option Nat
  lastLogin : Option Nat
  deriving Repr, DecidableEq

/-- `adminSchema.virtual("isLocked")`: lock-until present and strictly in the
future (`this.lockUntil && this.lockUntil > Date.now()`). -/
def Admin.isLocked (a : Admin) (now : Nat) : Bool :=
  match a.lockUntil with
  | some t => now < t
  | none => false

/-- `maxAttempts` in `incLoginAttempts`. -/
def maxLoginAttempts : Nat := 5

/-- `lockTime` in `incLoginAttempts`: 2 hours in milliseconds. -/
def lockTime : Nat := 2 * 60 * 60 * 1000

/-- `adminSchema.methods.incLoginAttempts`: if a previous lock has expired
(`lockUntil < Date.now()`), restart the counter at 1 and clear the lock;
otherwise increment the counter, and set `lockUntil = now + lockTime` when the
incremented counter reaches `maxAttempts` while the account is not locked. -/
def Admin.incLoginAttempts (a : Admin) (now : Nat) : Admin :=
  match a.lockUntil with
  | some t =>
    if t < now then
      { a with lockUntil := none, loginAttempts := 1 }
    else
      let a1 := { a with loginAttempts := a.loginAttempts + 1 }
      if a.loginAttempts + 1 ≥ maxLoginAttempts ∧ ¬ a.isLocked now then
        { a1 with lockUntil := some (now + lockTime) }
      else a1
  | none =>
    let a1 := { a with loginAttempts := a.loginAttempts + 1 }
    if a.loginAttempts + 1 ≥ maxLoginAttempts ∧ ¬ a.isLocked now then
      { a1 with lockUntil := some (now + lockTime) }
    else a1

/-- `adminSchema.methods.resetLoginAttempts`: unset the counter and the lock
(reads of the unset fields yield the schema defaults 0 / null) and stamp the
last successful login. -/
def Admin.resetLoginAttempts (a : Admin) (now : Nat) : Admin :=
  { a with loginAttempts := 0, lockUntil := none, lastLogin := some now }

/-- Remaining lock time surfaced by `AdminService.verifyAdmin`:
`Math.ceil((admin.lockUntil - Date.now()) / 1000 / 60)` minutes. -/
def lockRemainingMinutes (lockUntil now : Nat) : Nat :=
  (lockUntil - now + 59999) / 60000

/-- Environment-derived configuration (`process.env`).  A `none` field models
an unset environment variable, which every signing path replaces by the
literal fallback secret. -/
structure Env where
  jwtSecret : Option String
  jwtRefreshSecret : Option String
  jwtExpiresInSec : Option Nat
  deriving Repr, DecidableEq

/-- The literal `"fallback_secret_key"` used whenever `JWT_SECRET` or
`JWT_REFRESH_SECRET` is not configured. -/
def fallbackSecret : String := "fallback_secret_key"

/-- `process.env.JWT_SECRET || "fallback_secret_key"` (admin and device
access-token paths). -/
def Env.accessSecret (e : Env) : String := e.jwtSecret.getD fallbackSecret

/-- `process.env.JWT_REFRESH_SECRET || "fallback_secret_key"` (refresh-token
path). -/
def Env.refreshSecret (e : Env) : String := e.jwtRefreshSecret.getD fallbackSecret

/-- The claim set carried inside a signed JWT.  `none` models an absent claim
(a JavaScript `undefined` property is dropped by `JSON.stringify` when the
payload is signed).  `typ` is the `type` kind tag. -/
structure ClaimSet where
  appInfoId : Option Nat := none
  appName : Option String := none
  version : Option String := none
  libraryToken : Option String := none
  adminId : Option Nat := none
  email : Option String := none
  typ : String := ""
  deriving Repr, DecidableEq

/-- A signed JWT, modelled by the data that determines it: its claim set, the
signing secret, issued-at (seconds), lifetime (seconds) and the fixed
issuer/audience strings.  A refresh token additionally embeds the device
access token it was issued alongside (`deviceToken` in the source payload);
that embedded token is opaque to every verifier in the code, so it is
modelled by its claim set. -/
structure SignedToken where
  claims : ClaimSet
  deviceTokenClaim : Option ClaimSet := none
  secret : String
  iat : Nat
  ttlSec : Nat
  issuer : String
  audience : String
  deriving Repr, DecidableEq

/-- `jwt.verify(token, secret)` with no extra options: the signature verifies
iff the token was signed with `secret`, and the token is accepted iff the
current time (seconds) is before `iat + ttl`. -/
def jwtVerify (t : SignedToken) (secret : String) (nowSec : Nat) : Option ClaimSet :=
  if t.secret = secret ∧ nowSec < t.iat + t.ttlSec then some t.claims else none

/-- `adminSchema.methods.generateAuthToken`: payload `{id, email, type:
"admin"}`, signed with `JWT_SECRET || fallback`, lifetime
`JWT_EXPIRES_IN || "24h"`, audience `"admin"`. -/
def Admin.generateAuthToken (e : Env) (a : Admin) (nowSec : Nat) : SignedToken :=
  { claims := { adminId := some a.id, email := some a.email, typ := "admin" }
    secret := e.accessSecret
    iat := nowSec
    ttlSec := e.jwtExpiresInSec.getD 86400
    issuer := "express_learning_api"
    audience := "admin" }

/-- Outcome of `AdminService.verifyAdmin` (each constructor is one thrown
error message or the success return). -/
inductive LoginResult where
  | missingCredentials
  | invalidCredentials
  | accountLocked (remainingMinutes : Nat)
  | accountDeactivated
  | loginOk (token : SignedToken)
  deriving Repr, DecidableEq

/-- The not-locked tail of `AdminService.verifyAdmin`: active check, password
comparison, then either `incLoginAttempts` (mismatch) or
`resetLoginAttempts` and admin-token issuance (match).
`cmp candidate stored` abstracts `bcrypt.compare`. -/
def loginUnlocked (cmp : String → String → Bool) (e : Env) (a : Admin)
    (password : String) (now : Nat) : LoginResult × Admin :=
  if ¬ a.isActive then (.accountDeactivated, a)
  else if cmp password a.password then
    (.loginOk (Admin.generateAuthToken e (a.resetLoginAttempts now) (now / 1000)),
      a.resetLoginAttempts now)
  else (.invalidCredentials, a.incLoginAttempts now)

/-- The per-admin body of `AdminService.verifyAdmin` after the email lookup:
the locked check (surfacing the remaining lock time) guards everything else,
in particular it precedes the password comparison. -/
def loginOutcome (cmp : String → String → Bool) (e : Env) (a : Admin)
    (password : String) (now : Nat) : LoginResult × Admin :=
  match a.lockUntil with
  | some t =>
    if now < t then
      (.accountLocked (lockRemainingMinutes t now), a)
    else loginUnlocked cmp e a password now
  | none => loginUnlocked cmp e a password now

/-- First element satisfying a predicate, together with its index. -/
def findWithIndex (p : α → Bool) : List α → Option (Nat × α)
  | [] => none
  | x :: xs =>
    if p x then some (0, x)
    else (findWithIndex p xs).map (fun ia => (ia.1 + 1, ia.2))

/-- `Admin.findByEmailWithPassword`: `findOne({email: email.toLowerCase(),
isActive: true})`, as a search over the admin collection. -/
def findByEmailWithPassword (admins : List Admin) (email : String) :
    Option (Nat × Admin) :=
  findWithIndex (fun a => a.email == strLower email && a.isActive) admins

/-- `AdminService.verifyAdmin` over the admin collection: required-fields
check, lookup (which filters `isActive: true`), then `loginOutcome` on the
found document, writing the updated document back. -/
def verifyAdmin (cmp : String → String → Bool) (e : Env) (admins : List Admin)
    (email password : String) (now : Nat) : LoginResult × List Admin :=
  if email = "" ∨ password = "" then (.missingCredentials, admins)
  else
    match findByEmailWithPassword admins email with
    | none => (.invalidCredentials, admins)
    | some (i, a) =>
      let (r, a') := loginOutcome cmp e a password now
      (r, admins.set i a')

/-- A library-token document (`src/models/LibraryToken.js`).  `createdByEmail`
models the populated `createdBy` admin reference by the only attribute the
device path reads from it. -/
structure LibToken where
  token : String
  createdByEmail : String
  validity : Nat
  isActive : Bool
  usageCount : Nat
  lastUsed : Option Nat
  deriving Repr, DecidableEq

/-- `libraryTokenSchema.virtual("isExpired")`: `new Date() > this.validity`
(strictly after the validity instant). -/
def LibToken.isExpired (lt : LibToken) (now : Nat) : Bool :=
  lt.validity < now

/-- `libraryTokenSchema.virtual("isValid")`: active and not expired. -/
def LibToken.isValidTok (lt : LibToken) (now : Nat) : Bool :=
  lt.isActive && ! lt.isExpired now

/-- Optional metadata strings recorded with an app identity (`null` = `none`). -/
structure Metadata where
  userAgent : Option String := none
  ipAddress : Option String := none
  platform : Option String := none
  deriving Repr, DecidableEq

/-- An app-identity document (`src/models/AppInfo.js`).  `id` models the
Mongo `_id`. -/
structure AppInfo where
  id : Nat
  appName : String
  version : String
  libraryToken : String
  isActive : Bool
  lastAuthAt : Nat
  authCount : Nat
  metadata : Metadata
  deriving Repr, DecidableEq

/-- The persistent store: the three collections the token chain touches,
plus a counter from which fresh `_id`s are drawn. -/
structure Store where
  admins : List Admin
  libTokens : List LibToken
  appInfos : List AppInfo
  nextId : Nat
  deriving Repr, DecidableEq

/-- `^[a-f0-9]{32}$`, the token-shape regex checked at every boundary. -/
def isLowerHexChar (c : Char) : Bool :=
  ('a' ≤ c && c ≤ 'f') || ('0' ≤ c && c ≤ '9')

/-- A string matches `^[a-f0-9]{32}$`. -/
def isValidTokenFormat (s : String) : Bool :=
  strLen s == 32 && s.data.all isLowerHexChar

/-- `LibraryToken.findByToken`: `findOne({token})`. -/
def Store.findByToken (st : Store) (tok : String) : Option LibToken :=
  st.libTokens.find? (fun lt => lt.token == tok)

/-- Replace the first element satisfying `p` by its image under `f`
(a `save()` writing one found document back). -/
def updateFirst (p : α → Bool) (f : α → α) : List α → List α
  | [] => []
  | x :: xs => if p x then f x :: xs else x :: updateFirst p f xs

/-- `libraryTokenSchema.methods.recordUsage`: increment the usage counter and
stamp last-used on the stored document. -/
def Store.recordUsage (st : Store) (tok : String) (now : Nat) : Store :=
  { st with
    libTokens := updateFirst (fun lt => lt.token == tok)
      (fun lt => { lt with usageCount := lt.usageCount + 1, lastUsed := some now })
      st.libTokens }

/-- `[a-zA-Z0-9]`. -/
def isAlnumChar (c : Char) : Bool :=
  ('a' ≤ c && c ≤ 'z') || ('A' ≤ c && c ≤ 'Z') || ('0' ≤ c && c ≤ '9')

/-- A nonempty all-digit chunk (`\d+`). -/
def isNatChunk (l : List Char) : Bool :=
  ! l.isEmpty && l.all Char.isDigit

/-- The dotted core `(\d+\.)?(\d+\.)?(\*|\d+)` of the version pattern. -/
def versionCoreOk (l : List Char) : Bool :=
  match splitOnChar '.' l with
  | [p] => isNatChunk p || p == ['*']
  | [p, q] => isNatChunk p && (isNatChunk q || q == ['*'])
  | [p, q, r] => isNatChunk p && isNatChunk q && (isNatChunk r || r == ['*'])
  | _ => false

/-- The version pattern of the AppInfo schema,
`^(\d+\.)?(\d+\.)?(\*|\d+)(-[a-zA-Z0-9]+)?$`: up to two leading
`digits.`-chunks, then `*` or digits, then an optional `-alphanumeric`
suffix.  Since the core groups admit no `-`, the suffix (when any `-`
occurs) starts at the first `-` and must be nonempty alphanumeric. -/
def versionPatternOk (s : String) : Bool :=
  match splitOnChar '-' s.data with
  | [core] => versionCoreOk core
  | [core, suffix] =>
    versionCoreOk core && ! suffix.isEmpty && suffix.all isAlnumChar
  | _ => false

/-- The document validators the AppInfo schema runs on `save()`: app-name
length 2..100, version length ≤ 20 matching the version pattern, library
token matching the 32-hex shape, and the metadata length caps. -/
def appInfoDocValid (a : AppInfo) : Bool :=
  2 ≤ strLen a.appName && strLen a.appName ≤ 100 &&
  strLen a.version ≤ 20 && versionPatternOk a.version &&
  isValidTokenFormat a.libraryToken &&
  strLen ((a.metadata.userAgent).getD "") ≤ 500 &&
  strLen ((a.metadata.ipAddress).getD "") ≤ 45 &&
  strLen ((a.metadata.platform).getD "") ≤ 50

/-- `if (metadata.field) appInfo.metadata.field = metadata.field`: overwrite
only with a truthy (present, nonempty) incoming value. -/
def overwriteOpt (incoming old : Option String) : Option String :=
  match incoming with
  | some s => if s = "" then old else some s
  | none => old

/-- The metadata refresh performed on the found document in
`AppInfo.findOrCreate`. -/
def Metadata.merge (old incoming : Metadata) : Metadata :=
  { userAgent := overwriteOpt incoming.userAgent old.userAgent
    ipAddress := overwriteOpt incoming.ipAddress old.ipAddress
    platform := overwriteOpt incoming.platform old.platform }

/-- The `appInfoData` argument of `AppInfo.findOrCreate`. -/
structure AppData where
  appName : String
  version : String
  libraryToken : String
  metadata : Metadata
  deriving Repr, DecidableEq

/-- An active app identity matching a (name, version, library token) tuple. -/
def tupleMatch (n v t : String) (a : AppInfo) : Bool :=
  a.appName == n && a.version == v && a.libraryToken == t && a.isActive

/-- The `findOne({appName, version, libraryToken, isActive: true})` predicate
of `AppInfo.findOrCreate`. -/
def appMatch (d : AppData) : AppInfo → Bool :=
  tupleMatch d.appName d.version d.libraryToken

/-- The in-place update `findOrCreate` applies to a found document: refresh
timestamp, bump the auth counter, merge metadata. -/
def upsertUpdate (a : AppInfo) (d : AppData) (now : Nat) : AppInfo :=
  { a with
    lastAuthAt := now
    authCount := a.authCount + 1
    metadata := a.metadata.merge d.metadata }

/-- The fresh document `findOrCreate` builds when no active match exists
(schema defaults: counter 1, active, authenticated now). -/
def upsertNew (id : Nat) (d : AppData) (now : Nat) : AppInfo :=
  { id := id
    appName := d.appName
    version := d.version
    libraryToken := d.libraryToken
    isActive := true
    lastAuthAt := now
    authCount := 1
    metadata := d.metadata }

/-- `AppInfo.findOrCreate`: look up the active document keyed by
(appName, version, libraryToken); if found, bump its auth counter, refresh
timestamp and metadata and save; otherwise create a fresh document (counter
defaults to 1, active).  A `save()` whose document fails schema validation
throws, modelled by `Except.error`. -/
def Store.findOrCreate (st : Store) (d : AppData) (now : Nat) :
    Except Unit (AppInfo × Store) :=
  match findWithIndex (appMatch d) st.appInfos with
  | some (i, a) =>
    if appInfoDocValid (upsertUpdate a d now) then
      .ok (upsertUpdate a d now,
        { st with appInfos := st.appInfos.set i (upsertUpdate a d now) })
    else .error ()
  | none =>
    if appInfoDocValid (upsertNew st.nextId d now) then
      .ok (upsertNew st.nextId d now,
        { st with
          appInfos := st.appInfos ++ [upsertNew st.nextId d now],
          nextId := st.nextId + 1 })
    else .error ()

/-- `DeviceService.generateDeviceToken`: spread the payload, set kind
`"device"`, sign with `JWT_SECRET || fallback`, 5-minute lifetime. -/
def generateDeviceToken (e : Env) (p : ClaimSet) (nowSec : Nat) : SignedToken :=
  { claims := { p with typ := "device" }
    deviceTokenClaim := none
    secret := e.accessSecret
    iat := nowSec
    ttlSec := 300
    issuer := "express_learning_api"
    audience := "device" }

/-- `DeviceService.generateRefreshToken`: spread the payload (which carries
the just-issued device token and no `libraryToken` claim), set kind
`"refresh"`, sign with `JWT_REFRESH_SECRET || fallback`, 7-day lifetime. -/
def generateRefreshToken (e : Env) (p : ClaimSet) (deviceTok : Option ClaimSet)
    (nowSec : Nat) : SignedToken :=
  { claims := { p with typ := "refresh" }
    deviceTokenClaim := deviceTok
    secret := e.refreshSecret
    iat := nowSec
    ttlSec := 7 * 86400
    issuer := "express_learning_api"
    audience := "device" }

/-- `DeviceService.verifyDeviceToken`: verify under the access secret, then
require kind `"device"`; every failure collapses to the single
"Invalid or expired device token" error (`none`). -/
def verifyDeviceToken (e : Env) (t : SignedToken) (nowSec : Nat) :
    Option ClaimSet :=
  match jwtVerify t e.accessSecret nowSec with
  | none => none
  | some c => if c.typ = "device" then some c else none

/-- The success payload of `DeviceService.authenticateDevice`. -/
structure DeviceAuthSuccess where
  accessToken : SignedToken
  refreshToken : SignedToken
  appInfo : AppInfo
  tokenCreatedBy : String
  tokenValidity : Nat
  tokenUsageCount : Nat
  deriving Repr, DecidableEq

/-- Outcome of `DeviceService.authenticateDevice`: one constructor per thrown
error message, plus the propagated upsert validation failure and success. -/
inductive DeviceAuthResult where
  | missingToken
  | missingAppInfo
  | badTokenFormat
  | invalidToken
  | tokenDeactivated
  | tokenExpired
  | upsertFailed
  | authOk (s : DeviceAuthSuccess)
  deriving Repr, DecidableEq

/-- The input-validation failures the HTTP layer reports as 400 Bad Request
(the store-dependent failures map to 401 instead). -/
def DeviceAuthResult.isBadRequest : DeviceAuthResult → Bool
  | .missingToken | .missingAppInfo | .badTokenFormat => true
  | _ => false

/-- The request body of a device exchange: an absent token or app-info field
is the empty string (JavaScript falsiness). -/
structure AuthRequest where
  token : String
  appName : String
  version : String
  metadata : Metadata
  deriving Repr, DecidableEq

/-- `DeviceService.authenticateDevice`: required-field checks, token-shape
check, lookup, active check, expiry check, `recordUsage`, identity upsert,
then issuance of the access/refresh token pair.  An upsert validation
failure propagates after the usage recording has already been saved. -/
def authenticateDevice (e : Env) (st : Store) (req : AuthRequest) (now : Nat) :
    DeviceAuthResult × Store :=
  if req.token = "" then (.missingToken, st)
  else if req.appName = "" ∨ req.version = "" then (.missingAppInfo, st)
  else if ¬ isValidTokenFormat req.token then (.badTokenFormat, st)
  else
    match st.findByToken req.token with
    | none => (.invalidToken, st)
    | some lt =>
      if ¬ lt.isActive then (.tokenDeactivated, st)
      else if lt.isExpired now then (.tokenExpired, st)
      else
        let st1 := st.recordUsage req.token now
        let d : AppData :=
          { appName := strTrim req.appName
            version := strTrim req.version
            libraryToken := req.token
            metadata := req.metadata }
        match st1.findOrCreate d now with
        | .error _ => (.upsertFailed, st1)
        | .ok (ai, st2) =>
          let access := generateDeviceToken e
            { appInfoId := some ai.id
              appName := some ai.appName
              version := some ai.version
              libraryToken := some req.token } (now / 1000)
          let refresh := generateRefreshToken e
            { appInfoId := some ai.id
              appName := some ai.appName
              version := some ai.version } (some access.claims) (now / 1000)
          (.authOk
            { accessToken := access
              refreshToken := refresh
              appInfo := ai
              tokenCreatedBy := lt.createdByEmail
              tokenValidity := lt.validity
              tokenUsageCount := lt.usageCount + 1 }, st2)

/-- Outcome of `DeviceService.generateNewAccessToken`: the `catch` collapses
every failure (missing token, bad signature, expired, wrong kind) into the
single "Invalid or expired refresh token" error. -/
inductive RefreshResult where
  | invalidRefreshToken
  | refreshOk (accessToken : SignedToken)
  deriving Repr, DecidableEq

/-- `DeviceService.generateNewAccessToken`: verify the presented token under
the refresh secret, require kind `"refresh"`, then build a fresh device
access token from exactly the `appInfoId`, `appName`, `version` and
`libraryToken` claims of the decoded payload.  No store is consulted. -/
def generateNewAccessToken (e : Env) (rt : Option SignedToken) (nowSec : Nat) :
    RefreshResult :=
  match rt with
  | none => .invalidRefreshToken
  | some t =>
    match jwtVerify t e.refreshSecret nowSec with
    | none => .invalidRefreshToken
    | some decoded =>
      if decoded.typ = "refresh" then
        .refreshOk (generateDeviceToken e
          { appInfoId := decoded.appInfoId
            appName := decoded.appName
            version := decoded.version
            libraryToken := decoded.libraryToken } nowSec)
      else .invalidRefreshToken

/-- One hexadecimal digit, lowercase (the alphabet of
`Buffer.toString("hex")`). -/
def hexDigit (n : Nat) : Char :=
  if n < 10 then Char.ofNat ('0'.toNat + n) else Char.ofNat ('a'.toNat + (n - 10))

/-- `Buffer.toString("hex")`: each byte becomes its high then low nibble. -/
def bytesToHex (bs : List Nat) : String :=
  String.mk (bs.foldr (fun b acc => hexDigit (b / 16 % 16) :: hexDigit (b % 16) :: acc) [])

/-- The retry bound of `LibraryToken.generateUniqueToken`. -/
def maxTokenAttempts : Nat := 10

/-- The generate-check-retry loop of `LibraryToken.generateUniqueToken`.
`stream i` models the 16 bytes `crypto.randomBytes(16)` returns on the
`i`-th draw; `tokens` are the stored token values the `findOne({token})`
uniqueness probe sees. -/
def genTokenLoop (tokens : List String) (stream : Nat → List Nat) :
    Nat → Nat → Option String
  | _, 0 => none
  | i, fuel + 1 =>
    let cand := bytesToHex (stream i)
    if tokens.contains cand then genTokenLoop tokens stream (i + 1) fuel
    else some cand

/-- `LibraryToken.generateUniqueToken`: up to `maxTokenAttempts` candidate
draws; `none` models the thrown "Failed to generate unique token after
maximum attempts". -/
def generateUniqueToken (st : Store) (stream : Nat → List Nat) : Option String :=
  genTokenLoop (st.libTokens.map (fun lt => lt.token)) stream 0 maxTokenAttempts

/-- Outcome of `AdminService.generateLibraryToken`. -/
inductive IssueResult where
  | adminNotFound
  | adminInactive
  | invalidValidityDays
  | tokenSpaceExhausted
  | issued (lt : LibToken)
  deriving Repr, DecidableEq

/-- One day in milliseconds (`validity.setDate(getDate() + validityDays)`,
idealized to uniform 24-hour days). -/
def msPerDay : Nat := 86400000

/-- `AdminService.generateLibraryToken`: check the requesting admin exists
and is active, check the validity range, draw a unique token value, then
persist the new library token with usage counter 0, active, expiring
`validityDays` days from now. -/
def generateLibraryTokenSvc (st : Store) (stream : Nat → List Nat)
    (adminId : Nat) (validityDays : Nat) (now : Nat) : IssueResult × Store :=
  match st.admins.find? (fun a => a.id == adminId) with
  | none => (.adminNotFound, st)
  | some ad =>
    if ¬ ad.isActive then (.adminInactive, st)
    else if validityDays = 0 ∨ validityDays > 365 then (.invalidValidityDays, st)
    else
      match generateUniqueToken st stream with
      | none => (.tokenSpaceExhausted, st)
      | some tok =>
        let lt : LibToken :=
          { token := tok
            createdByEmail := ad.email
            validity := now + validityDays * msPerDay
            isActive := true
            usageCount := 0
            lastUsed := none }
        (.issued lt, { st with libTokens := st.libTokens ++ [lt] })

/-- The issued token of an issuance outcome, when the issuance succeeded. -/
def IssueResult.tokenOf : IssueResult → Option LibToken
  | .issued lt => some lt
  | _ => none

/-- The refresh token of a device-exchange outcome, when the exchange
succeeded. -/
def DeviceAuthResult.refreshOf : DeviceAuthResult → Option SignedToken
  | .authOk s => some s.refreshToken
  | _ => none

/-- The access token of a device-exchange outcome, when the exchange
succeeded. -/
def DeviceAuthResult.accessOf : DeviceAuthResult → Option SignedToken
  | .authOk s => some s.accessToken
  | _ => none

/-- The re-issued access token of a refresh outcome, when it succeeded. -/
def RefreshResult.accessOf : RefreshResult → Option SignedToken
  | .refreshOk t => some t
  | _ => none

/-- Usage counter of the stored library token with the given value. -/
def Store.usageOf (st : Store) (tok : String) : Option Nat :=
  (st.findByToken tok).map (fun lt => lt.usageCount)

/-- Number of active stored app identities matching a
(name, version, library token) tuple. -/
def Store.activeMatches (st : Store) (n v t : String) : Nat :=
  (st.appInfos.filter (tupleMatch n v t)).length

/-! Concrete fixtures used by the witnesses and counterexamples below. -/

/-- `bcrypt.compare` instantiated to equality of the candidate with the
stored value (a correct comparison against an injective hash). -/
def eqCmp : String → String → Bool := fun candidate stored => candidate == stored

/-- An environment with no configured secrets. -/
def exEnv : Env :=
  { jwtSecret := none, jwtRefreshSecret := none, jwtExpiresInSec := none }

/-- A well-formed 32-character library token value. -/
def exTokenValue : String := "0123456789abcdef0123456789abcdef"

/-- An active, unlocked administrator. -/
def exAdmin : Admin :=
  { id := 1, email := "root@example.com", password := "storedhash"
    isActive := true, loginAttempts := 0, lockUntil := none, lastLogin := none }

/-- The same administrator, deactivated. -/
def exInactiveAdmin : Admin := { exAdmin with isActive := false }

/-- An active library token valid until t = 1000000. -/
def exLibToken : LibToken :=
  { token := exTokenValue, createdByEmail := "root@example.com"
    validity := 1000000, isActive := true, usageCount := 3, lastUsed := none }

/-- A store holding the example admin and library token. -/
def exStore : Store :=
  { admins := [exAdmin], libTokens := [exLibToken], appInfos := [], nextId := 7 }

/-- A well-formed device-exchange request against `exTokenValue`. -/
def exReq : AuthRequest :=
  { token := exTokenValue, appName := "TestApp", version := "1.0.0", metadata := {} }

/-- A device-exchange request whose version fails the AppInfo schema
pattern, so the identity upsert throws after usage recording. -/
def exReqBadVersion : AuthRequest :=
  { token := exTokenValue, appName := "TestApp", version := "abc", metadata := {} }

/-- A device-exchange request whose token value fails the 32-hex shape. -/
def exReqBadTok : AuthRequest :=
  { token := "xyz", appName := "TestApp", version := "1.0.0", metadata := {} }

/-- A deterministic stand-in for `crypto.randomBytes(16)`. -/
def exStream : Nat → List Nat :=
  fun _ => [1, 2, 3, 4, 5, 6, 7, 8, 9, 10, 11, 12, 13, 14, 15, 16]

/-- A byte stream every draw of which collides with `exTokenValue`. -/
def exCollidingStream : Nat → List Nat :=
  fun _ => [0x01, 0x23, 0x45, 0x67, 0x89, 0xab, 0xcd, 0xef,
            0x01, 0x23, 0x45, 0x67, 0x89, 0xab, 0xcd, 0xef]

/-- The library token `generateLibraryTokenSvc exStore exStream 1 1 0`
issues. -/
def exIssuedTok : LibToken :=
  { token := "0102030405060708090a0b0c0d0e0f10"
    createdByEmail := "root@example.com"
    validity := 86400000, isActive := true, usageCount := 0, lastUsed := none }

/-- A refresh token as issued alongside a device access token. -/
def exRefreshTok : SignedToken :=
  generateRefreshToken exEnv
    { appInfoId := some 7, appName := some "TestApp", version := some "1.0.0" }
    none 5

/-- The app identity created by upserting `exUpsertData` into `exStore`. -/
def exUpsertData : AppData :=
  { appName := "TestApp", version := "1.0.0", libraryToken := exTokenValue
    metadata := {} }

/-- The app-identity document that upsert creates. -/
def exAppInfo : AppInfo :=
  { id := 7, appName := "TestApp", version := "1.0.0"
    libraryToken := exTokenValue, isActive := true, lastAuthAt := 5
    authCount := 1, metadata := {} }

/-- `exStore` after the creating upsert. -/
def exStoreAfterUpsert : Store :=
  { exStore with appInfos := [exAppInfo], nextId := 8 }

/-- The access token of the example exchange. -/
def exAccessTok : SignedToken :=
  generateDeviceToken exEnv
    { appInfoId := some 7, appName := some "TestApp", version := some "1.0.0",
      libraryToken := some exTokenValue } 5

/-- The success payload of the example exchange
`authenticateDevice exEnv exStore exReq 5000`. -/
def exDeviceSuccess : DeviceAuthSuccess :=
  { accessToken := exAccessTok
    refreshToken :=
      generateRefreshToken exEnv
        { appInfoId := some 7, appName := some "TestApp"
          version := some "1.0.0" }
        (some exAccessTok.claims) 5
    appInfo := { exAppInfo with lastAuthAt := 5000 }
    tokenCreatedBy := "root@example.com"
    tokenValidity := 1000000
    tokenUsageCount := 4 }

/-! Helper lemmas. -/

theorem findWithIndex_eq_none {p : α → Bool} {l : List α}
    (h : ∀ x ∈ l, p x = false) : findWithIndex p l = none := by
  induction l with
  | nil => rfl
  | cons x xs ih =>
    have hx := h x (List.mem_cons_self x xs)
    simp only [findWithIndex, hx, Bool.false_eq_true, if_false]
    rw [ih (fun y hy => h y (List.mem_cons_of_mem x hy))]
    rfl

theorem findWithIndex_none_forall {p : α → Bool} {l : List α}
    (h : findWithIndex p l = none) : ∀ x ∈ l, p x = false := by
  induction l with
  | nil => intro x hx; cases hx
  | cons y ys ih =>
    intro x hx
    by_cases hy : p y
    · simp [findWithIndex, hy] at h
    · have hrec : findWithIndex p ys = none := by
        cases hys : findWithIndex p ys with
        | none => rfl
        | some ia => simp [findWithIndex, hy, hys] at h
      rcases List.mem_cons.mp hx with rfl | hmem
      · exact Bool.eq_false_iff.mpr hy
      · exact ih hrec x hmem

theorem findWithIndex_some {p : α → Bool} :
    ∀ {l : List α} {i : Nat} {x : α}, findWithIndex p l = some (i, x) →
      l.get? i = some x ∧ p x = true := by
  intro l
  induction l with
  | nil => intro i x h; cases h
  | cons y ys ih =>
    intro i x h
    by_cases hy : p y
    · simp only [findWithIndex, hy, if_true] at h
      cases h
      exact ⟨rfl, hy⟩
    · simp only [findWithIndex, hy, Bool.false_eq_true, if_false] at h
      cases hrec : findWithIndex p ys with
      | none => rw [hrec] at h; cases h
      | some ia =>
        rw [hrec] at h
        cases h
        obtain ⟨hg, hp⟩ := ih hrec
        exact ⟨hg, hp⟩

theorem find?_updateFirst (p : α → Bool) (f : α → α)
    (hf : ∀ x, p (f x) = p x) :
    ∀ l : List α, (updateFirst p f l).find? p = (l.find? p).map f := by
  intro l
  induction l with
  | nil => rfl
  | cons x xs ih =>
    by_cases hx : p x
    · simp [updateFirst, hx, List.find?_cons, hf x]
    · simp [updateFirst, hx, List.find?_cons, ih]

theorem length_filter_set_eq {q : α → Bool} :
    ∀ (l : List α) (i : Nat) (a a' : α), l.get? i = some a → q a' = q a →
      ((l.set i a').filter q).length = (l.filter q).length
  | [], _, _, _, h, _ => by cases h
  | x :: xs, 0, a, a', h, hq => by
    injection h with h
    subst h
    simp only [List.set]
    by_cases hx : q x
    · have hx' : q a' = true := by rw [hq]; exact hx
      simp [List.filter_cons, hx, hx']
    · have hx' : q a' = false := by rw [hq]; exact Bool.eq_false_iff.mpr hx
      simp [List.filter_cons, hx', Bool.eq_false_iff.mpr hx]
  | x :: xs, j + 1, a, a', h, hq => by
    simp only [List.get?] at h
    simp only [List.set]
    by_cases hx : q x
    · simp [List.filter_cons, hx, length_filter_set_eq xs j a a' h hq]
    · simp [List.filter_cons, Bool.eq_false_iff.mpr hx,
        length_filter_set_eq xs j a a' h hq]

theorem findOrCreate_libTokens {st : Store} {d : AppData} {now : Nat}
    {ai : AppInfo} {st' : Store} (h : st.findOrCreate d now = .ok (ai, st')) :
    st'.libTokens = st.libTokens := by
  unfold Store.findOrCreate at h
  split at h
  · split at h
    · cases h; rfl
    · cases h
  · split at h
    · cases h; rfl
    · cases h

theorem recordUsage_findByToken {st : Store} {tok : String} {lt : LibToken}
    (now : Nat) (h : st.findByToken tok = some lt) :
    (st.recordUsage tok now).findByToken tok =
      some { lt with usageCount := lt.usageCount + 1, lastUsed := some now } := by
  have key := find?_updateFirst (fun x : LibToken => x.token == tok)
    (fun x => { x with usageCount := x.usageCount + 1, lastUsed := some now })
    (fun x => rfl) st.libTokens
  unfold Store.findByToken at h
  rw [h, Option.map_some'] at key
  exact key

/-! ### C3: validity window of an issued library token -/

/-- C3 is stated over the full issuance path; this inversion extracts the
issued token's shape. -/
theorem issued_token_shape {st : Store} {stream : Nat → List Nat}
    {adminId validityDays now : Nat} {lt : LibToken}
    (h : (generateLibraryTokenSvc st stream adminId validityDays now).1.tokenOf =
      some lt) :
    lt.isActive = true ∧ lt.validity = now + validityDays * msPerDay := by
  unfold generateLibraryTokenSvc at h
  split at h
  · simp [IssueResult.tokenOf] at h
  · split at h
    · simp [IssueResult.tokenOf] at h
    · split at h
      · simp [IssueResult.tokenOf] at h
      · split at h
        · simp [IssueResult.tokenOf] at h
        · simp only [IssueResult.tokenOf, Option.some.injEq] at h
          subst h
          exact ⟨rfl, rfl⟩

/-- C3 (corrected): the claim asserts `isValid` turns false at exactly
`T + V`; the code's expiry test is strict (`now > validity`), so an issued
token is still valid at that instant.  Concretely: a token issued at time 0
with one day of validity is reported valid at time `0 + 1 day`. -/
theorem c3_counterexample :
    ((generateLibraryTokenSvc exStore exStream 1 1 0).1.tokenOf.map
      (fun lt => lt.isValidTok (0 + 1 * msPerDay))) = some true := by decide

/-- C3 (amended): for every library token issued at time `T` with
`validityDays = V`, `isValid` (while the active flag holds) is true at every
time in the closed interval `[T, T + V]` — in particular on all of
`[T, T + V)` — and false at every time strictly after `T + V`. -/
theorem c3_validity_closed_interval (st : Store) (stream : Nat → List Nat)
    (adminId validityDays now : Nat) (lt : LibToken)
    (h : (generateLibraryTokenSvc st stream adminId validityDays now).1.tokenOf =
      some lt) (t : Nat) :
    lt.isValidTok t = true ↔ t ≤ now + validityDays * msPerDay := by
  obtain ⟨hact, hval⟩ := issued_token_shape h
  unfold LibToken.isValidTok LibToken.isExpired
  rw [hact, hval]
  simp

/-- Witness for C3: the amended theorem applied to the concretely issued
token, at the boundary instant. -/
theorem c3_validity_closed_interval_witness :
    exIssuedTok.isValidTok 86400000 = true :=
  (c3_validity_closed_interval exStore exStream 1 1 0 exIssuedTok (by decide)
    86400000).mpr (by decide)

/-! ### C4: refresh exchange trusts the refresh token's claims -/

/-- C4: `generateNewAccessToken` consults no store — its success depends only
on the presented token and the clock, so it succeeds whatever the current
state of the underlying LibraryToken and AppIdentity.  If the token verifies
under the refresh secret, is unexpired and carries kind `"refresh"`, a new
device access token is built from exactly the claims of the refresh token;
every failure (missing token, wrong key, expired, wrong kind) yields the
single `invalidRefreshToken` result. -/
theorem c4_refresh_trusts_claims (e : Env) (t : SignedToken) (nowSec : Nat) :
    (t.secret = e.refreshSecret → nowSec < t.iat + t.ttlSec →
      t.claims.typ = "refresh" →
      generateNewAccessToken e (some t) nowSec =
        .refreshOk (generateDeviceToken e
          { appInfoId := t.claims.appInfoId
            appName := t.claims.appName
            version := t.claims.version
            libraryToken := t.claims.libraryToken } nowSec)) ∧
    ((¬ t.secret = e.refreshSecret ∨ t.iat + t.ttlSec ≤ nowSec ∨
        ¬ t.claims.typ = "refresh") →
      generateNewAccessToken e (some t) nowSec = .invalidRefreshToken) ∧
    generateNewAccessToken e none nowSec = .invalidRefreshToken := by
  refine ⟨?_, ?_, rfl⟩
  · intro hs hf ht
    simp only [generateNewAccessToken, jwtVerify]
    rw [if_pos (show t.secret = e.refreshSecret ∧ nowSec < t.iat + t.ttlSec from
      ⟨hs, hf⟩)]
    simp [ht]
  · intro hbad
    simp only [generateNewAccessToken, jwtVerify]
    rcases hbad with hs | hf | ht
    · rw [if_neg (fun hc => hs hc.1)]
    · rw [if_neg (fun hc => (Nat.not_lt.mpr hf) hc.2)]
    · by_cases hc : t.secret = e.refreshSecret ∧ nowSec < t.iat + t.ttlSec
      · rw [if_pos hc]; simp [ht]
      · rw [if_neg hc]

/-- Witness for C4: a concrete refresh token is exchanged for a new access
token, and a device-kind token presented for refresh is rejected. -/
theorem c4_refresh_trusts_claims_witness :
    generateNewAccessToken exEnv (some exRefreshTok) 6 =
      .refreshOk (generateDeviceToken exEnv
        { appInfoId := some 7, appName := some "TestApp"
          version := some "1.0.0", libraryToken := none } 6) ∧
    generateNewAccessToken exEnv
      (some (generateDeviceToken exEnv { appInfoId := some 7 } 5)) 6 =
      .invalidRefreshToken :=
  ⟨(c4_refresh_trusts_claims exEnv exRefreshTok 6).1 (by decide) (by decide)
      (by decide),
    (c4_refresh_trusts_claims exEnv
      (generateDeviceToken exEnv { appInfoId := some 7 } 5) 6).2.1
      (Or.inr (Or.inr (by decide)))⟩

/-! ### C10: fallback signing key is shared across all three paths -/

/-- C10: with neither `JWT_SECRET` nor `JWT_REFRESH_SECRET` configured, the
admin, device-access and refresh paths all sign under the identical literal
fallback key; consequently an unexpired refresh token's signature verifies
under the access-token verification path, and only the kind-tag check makes
`verifyDeviceToken` reject it. -/
theorem c10_fallback_key_sharing (e : Env) (hs : e.jwtSecret = none)
    (hr : e.jwtRefreshSecret = none) (a : Admin) (p : ClaimSet)
    (dc : Option ClaimSet) (iat nowSec adminNowSec : Nat)
    (hfresh : nowSec < iat + 7 * 86400) :
    e.accessSecret = fallbackSecret ∧
    e.refreshSecret = fallbackSecret ∧
    (Admin.generateAuthToken e a adminNowSec).secret = fallbackSecret ∧
    (generateDeviceToken e p nowSec).secret = fallbackSecret ∧
    (generateRefreshToken e p dc iat).secret = fallbackSecret ∧
    jwtVerify (generateRefreshToken e p dc iat) e.accessSecret nowSec =
      some { p with typ := "refresh" } ∧
    ({ p with typ := "refresh" } : ClaimSet).typ ≠ "device" ∧
    verifyDeviceToken e (generateRefreshToken e p dc iat) nowSec = none := by
  have hacc : e.accessSecret = fallbackSecret := by
    unfold Env.accessSecret; rw [hs]; rfl
  have href : e.refreshSecret = fallbackSecret := by
    unfold Env.refreshSecret; rw [hr]; rfl
  have hver : jwtVerify (generateRefreshToken e p dc iat) e.accessSecret nowSec =
      some { p with typ := "refresh" } := by
    unfold jwtVerify generateRefreshToken
    rw [if_pos ⟨by rw [hacc, href], by simpa using hfresh⟩]
  refine ⟨hacc, href, hacc, hacc, href, hver, by simp, ?_⟩
  unfold verifyDeviceToken
  rw [hver]
  simp

/-- Witness for C10 at a concrete unconfigured environment and refresh
token. -/
theorem c10_fallback_key_sharing_witness :
    verifyDeviceToken exEnv (generateRefreshToken exEnv { appInfoId := some 7 }
      none 5) 6 = none :=
  (c10_fallback_key_sharing exEnv rfl rfl exAdmin { appInfoId := some 7 }
    none 5 6 0 (by decide)).2.2.2.2.2.2.2

/-! ### C5: login against a deactivated administrator -/

/-- C5 (corrected): the claim asserts a deactivated (not locked)
administrator's login yields `AccountDeactivated`; but the email lookup
`findByEmailWithPassword` filters on `isActive: true`, so the account is
simply not found and login yields `InvalidCredentials`. -/
theorem c5_counterexample :
    exInactiveAdmin.isActive = false ∧
    exInactiveAdmin.isLocked 0 = false ∧
    (verifyAdmin eqCmp exEnv [exInactiveAdmin] "root@example.com" "hunter2" 0).1 =
      LoginResult.invalidCredentials ∧
    (verifyAdmin eqCmp exEnv [exInactiveAdmin] "root@example.com" "hunter2" 0).1 ≠
      LoginResult.accountDeactivated := by decide

/-- C5 (amended): a login whose email matches only deactivated administrator
records yields `InvalidCredentials` — indistinguishable from an unknown
email — because the lookup filters inactive accounts; the
`AccountDeactivated` branch of `verifyAdmin` is unreachable from login. -/
theorem c5_inactive_login_invalid_credentials (cmp : String → String → Bool)
    (e : Env) (admins : List Admin) (email password : String) (now : Nat)
    (he : email ≠ "") (hp : password ≠ "")
    (hall : ∀ a ∈ admins, a.email = strLower email → a.isActive = false) :
    (verifyAdmin cmp e admins email password now).1 = .invalidCredentials := by
  unfold verifyAdmin
  rw [if_neg (by simp [he, hp])]
  have hnone : findByEmailWithPassword admins email = none := by
    unfold findByEmailWithPassword
    apply findWithIndex_eq_none
    intro a ha
    by_cases hmail : a.email = strLower email
    · simp [hmail, hall a ha hmail]
    · simp [hmail]
  rw [hnone]

/-- Witness for C5's amended statement at a concrete store. -/
theorem c5_inactive_login_invalid_credentials_witness :
    (verifyAdmin eqCmp exEnv [exInactiveAdmin] "root@example.com" "hunter2" 9).1 =
      .invalidCredentials :=
  c5_inactive_login_invalid_credentials eqCmp exEnv [exInactiveAdmin]
    "root@example.com" "hunter2" 9 (by decide) (by decide)
    (by intro a ha _; rw [List.mem_singleton.mp ha]; rfl)

/-! ### C1: account-lockout state machine -/

theorem verifyAdmin_singleton (cmp : String → String → Bool) (e : Env)
    (a : Admin) (email password : String) (now : Nat)
    (hem : a.email = strLower email) (ha : a.isActive = true)
    (he : email ≠ "") (hp : password ≠ "") :
    verifyAdmin cmp e [a] email password now =
      ((loginOutcome cmp e a password now).1,
        [(loginOutcome cmp e a password now).2]) := by
  unfold verifyAdmin
  rw [if_neg (by simp [he, hp])]
  have hfind : findByEmailWithPassword [a] email = some (0, a) := by
    unfold findByEmailWithPassword findWithIndex
    rw [if_pos (by simp [hem, ha])]
  rw [hfind]
  rcases hout : loginOutcome cmp e a password now with ⟨r, a'⟩
  simp [hout]

theorem loginOutcome_locked (cmp : String → String → Bool) (e : Env)
    (a : Admin) (pw : String) (now t : Nat) (hl : a.lockUntil = some t)
    (hn : now < t) :
    loginOutcome cmp e a pw now =
      (.accountLocked (lockRemainingMinutes t now), a) := by
  simp only [loginOutcome, hl]
  rw [if_pos hn]

theorem loginOutcome_wrong_password (e : Env) (a : Admin) (pw : String)
    (now : Nat) (hl : a.lockUntil = none) (ha : a.isActive = true)
    (hpw : pw ≠ a.password) :
    loginOutcome eqCmp e a pw now =
      (.invalidCredentials,
        if a.loginAttempts + 1 ≥ maxLoginAttempts then
          { a with
            loginAttempts := a.loginAttempts + 1,
            lockUntil := some (now + lockTime) }
        else { a with loginAttempts := a.loginAttempts + 1 }) := by
  have hlock : a.isLocked now = false := by
    unfold Admin.isLocked; rw [hl]
  simp only [loginOutcome, hl, loginUnlocked]
  rw [if_neg (by simp [ha]), if_neg (by simp [eqCmp, hpw])]
  unfold Admin.incLoginAttempts
  rw [hl]
  simp [hlock]

theorem loginOutcome_lock_expired (e : Env) (a : Admin) (pw : String)
    (now t : Nat) (hl : a.lockUntil = some t) (hn : t < now)
    (ha : a.isActive = true) (hpw : pw ≠ a.password) :
    loginOutcome eqCmp e a pw now =
      (.invalidCredentials, { a with loginAttempts := 1, lockUntil := none }) := by
  simp only [loginOutcome, hl]
  rw [if_neg (by omega)]
  simp only [loginUnlocked]
  rw [if_neg (by simp [ha]), if_neg (by simp [eqCmp, hpw])]
  simp only [Admin.incLoginAttempts, hl]
  rw [if_pos hn]

/-- C1: starting Unlocked (counter 0, no lock), five consecutive wrong-
password logins each return `InvalidCredentials`, the fifth leaving the
account Locked with `lockUntil = t5 + 2 hours`; a sixth call while the lock
is in the future returns `AccountLocked` for **every** password-comparison
function (the comparison is not consulted) and leaves the account unchanged;
and a wrong-password attempt arriving strictly after `lockUntil` resets the
counter to 1 and clears the lock. -/
theorem c1_lockout_state_machine (e : Env) (a : Admin) (email pw : String)
    (t1 t2 t3 t4 t5 : Nat)
    (hem : a.email = strLower email) (he : email ≠ "") (hp : pw ≠ "")
    (h0 : a.loginAttempts = 0) (hl : a.lockUntil = none)
    (ha : a.isActive = true) (hpw : pw ≠ a.password) :
    verifyAdmin eqCmp e [a] email pw t1 =
      (.invalidCredentials, [{ a with loginAttempts := 1 }]) ∧
    verifyAdmin eqCmp e [{ a with loginAttempts := 1 }] email pw t2 =
      (.invalidCredentials, [{ a with loginAttempts := 2 }]) ∧
    verifyAdmin eqCmp e [{ a with loginAttempts := 2 }] email pw t3 =
      (.invalidCredentials, [{ a with loginAttempts := 3 }]) ∧
    verifyAdmin eqCmp e [{ a with loginAttempts := 3 }] email pw t4 =
      (.invalidCredentials, [{ a with loginAttempts := 4 }]) ∧
    verifyAdmin eqCmp e [{ a with loginAttempts := 4 }] email pw t5 =
      (.invalidCredentials,
        [{ a with loginAttempts := 5, lockUntil := some (t5 + lockTime) }]) ∧
    (∀ (cmp' : String → String → Bool) (pw' : String) (t6 : Nat), pw' ≠ "" →
      t6 < t5 + lockTime →
      verifyAdmin cmp' e
        [{ a with loginAttempts := 5, lockUntil := some (t5 + lockTime) }]
        email pw' t6 =
        (.accountLocked (lockRemainingMinutes (t5 + lockTime) t6),
          [{ a with loginAttempts := 5, lockUntil := some (t5 + lockTime) }])) ∧
    (∀ t7 : Nat, t5 + lockTime < t7 →
      verifyAdmin eqCmp e
        [{ a with loginAttempts := 5, lockUntil := some (t5 + lockTime) }]
        email pw t7 =
        (.invalidCredentials,
          [{ a with loginAttempts := 1, lockUntil := none }])) := by
  have hstep : ∀ (a' : Admin) (t : Nat), a'.email = strLower email →
      a'.isActive = true → a'.lockUntil = none → a'.password = a.password →
      verifyAdmin eqCmp e [a'] email pw t =
        (.invalidCredentials,
          [if a'.loginAttempts + 1 ≥ maxLoginAttempts then
            { a' with
              loginAttempts := a'.loginAttempts + 1,
              lockUntil := some (t + lockTime) }
          else { a' with loginAttempts := a'.loginAttempts + 1 }]) := by
    intro a' t hem' ha' hl' hpw'
    rw [verifyAdmin_singleton eqCmp e a' email pw t hem' ha' he hp,
      loginOutcome_wrong_password e a' pw t hl' ha' (by rw [hpw']; exact hpw)]
  refine ⟨?_, ?_, ?_, ?_, ?_, ?_, ?_⟩
  · rw [hstep a t1 hem ha hl rfl]
    simp [maxLoginAttempts, h0]
  · rw [hstep { a with loginAttempts := 1 } t2 hem ha hl rfl]
    simp [maxLoginAttempts]
  · rw [hstep { a with loginAttempts := 2 } t3 hem ha hl rfl]
    simp [maxLoginAttempts]
  · rw [hstep { a with loginAttempts := 3 } t4 hem ha hl rfl]
    simp [maxLoginAttempts]
  · rw [hstep { a with loginAttempts := 4 } t5 hem ha hl rfl]
    simp [maxLoginAttempts]
  · intro cmp' pw' t6 hp' h6
    rw [verifyAdmin_singleton cmp' e
        { a with loginAttempts := 5, lockUntil := some (t5 + lockTime) }
        email pw' t6 hem ha he hp',
      loginOutcome_locked cmp' e _ pw' t6 (t5 + lockTime) rfl h6]
  · intro t7 h7
    rw [verifyAdmin_singleton eqCmp e
        { a with loginAttempts := 5, lockUntil := some (t5 + lockTime) }
        email pw t7 hem ha he hp,
      loginOutcome_lock_expired e
        { a with loginAttempts := 5, lockUntil := some (t5 + lockTime) }
        pw t7 (t5 + lockTime) rfl h7 ha hpw]

/-- Witness for C1: at concrete times, the fifth wrong-password call locks
the example admin, and the sixth is rejected while locked. -/
theorem c1_lockout_state_machine_witness :
    verifyAdmin eqCmp exEnv [{ exAdmin with loginAttempts := 4 }]
      "root@example.com" "wrongpass" 50 =
      (.invalidCredentials,
        [{ exAdmin with loginAttempts := 5, lockUntil := some (50 + lockTime) }]) ∧
    verifyAdmin eqCmp exEnv
      [{ exAdmin with loginAttempts := 5, lockUntil := some (50 + lockTime) }]
      "root@example.com" "anything" 60 =
      (.accountLocked (lockRemainingMinutes (50 + lockTime) 60),
        [{ exAdmin with loginAttempts := 5, lockUntil := some (50 + lockTime) }]) :=
  ⟨(c1_lockout_state_machine exEnv exAdmin "root@example.com" "wrongpass"
      10 20 30 40 50 (by decide) (by decide) (by decide) rfl rfl rfl
      (by decide)).2.2.2.2.1,
    (c1_lockout_state_machine exEnv exAdmin "root@example.com" "wrongpass"
      10 20 30 40 50 (by decide) (by decide) (by decide) rfl rfl rfl
      (by decide)).2.2.2.2.2.1 eqCmp "anything" 60 (by decide) (by decide)⟩

/-! ### C2: device-exchange error taxonomy and order -/

/-- C2: a token value failing `^[a-f0-9]{32}$` makes the exchange fail with a
400-class input-validation error before any store access (the result is the
same for every store, and the store is untouched); with well-formed input,
a missing stored record yields `InvalidToken`, a deactivated record yields
`TokenDeactivated` (checked before expiry), an expired record yields
`TokenExpired`; and the three store-dependent failure kinds are pairwise
distinct and distinct from the input-validation class. -/
theorem c2_exchange_error_order (e : Env) (st st' : Store) (req : AuthRequest)
    (now : Nat) :
    (isValidTokenFormat req.token = false →
      (authenticateDevice e st req now).1.isBadRequest = true ∧
      (authenticateDevice e st req now).2 = st ∧
      (authenticateDevice e st req now).1 = (authenticateDevice e st' req now).1) ∧
    (req.appName ≠ "" → req.version ≠ "" →
      (st.findByToken req.token = none → isValidTokenFormat req.token = true →
        authenticateDevice e st req now = (.invalidToken, st)) ∧
      (∀ lt : LibToken, st.findByToken req.token = some lt →
        isValidTokenFormat req.token = true → lt.isActive = false →
        authenticateDevice e st req now = (.tokenDeactivated, st)) ∧
      (∀ lt : LibToken, st.findByToken req.token = some lt →
        isValidTokenFormat req.token = true → lt.isActive = true →
        lt.validity < now →
        authenticateDevice e st req now = (.tokenExpired, st))) ∧
    (DeviceAuthResult.invalidToken ≠ DeviceAuthResult.tokenDeactivated ∧
      DeviceAuthResult.invalidToken ≠ DeviceAuthResult.tokenExpired ∧
      DeviceAuthResult.tokenDeactivated ≠ DeviceAuthResult.tokenExpired ∧
      DeviceAuthResult.invalidToken.isBadRequest = false ∧
      DeviceAuthResult.tokenDeactivated.isBadRequest = false ∧
      DeviceAuthResult.tokenExpired.isBadRequest = false) := by
  refine ⟨?_, ?_, by decide⟩
  · intro hfmt
    have hshape : ∀ s : Store, authenticateDevice e s req now =
        ((if req.token = "" then .missingToken
          else if req.appName = "" ∨ req.version = "" then .missingAppInfo
          else .badTokenFormat), s) := by
      intro s
      unfold authenticateDevice
      by_cases h1 : req.token = ""
      · simp [h1]
      · by_cases h2 : req.appName = "" ∨ req.version = ""
        · simp [h1, h2]
        · simp [h1, h2, hfmt]
    refine ⟨?_, ?_, ?_⟩
    · rw [hshape st]
      by_cases h1 : req.token = ""
      · simp [h1, DeviceAuthResult.isBadRequest]
      · by_cases h2 : req.appName = "" ∨ req.version = ""
        · simp [h1, h2, DeviceAuthResult.isBadRequest]
        · simp [h1, h2, DeviceAuthResult.isBadRequest]
    · rw [hshape st]
    · rw [hshape st, hshape st']
  · intro hn hv
    have hne : ∀ tok : String, isValidTokenFormat tok = true → tok ≠ "" := by
      intro tok hfmt h
      rw [h] at hfmt
      exact absurd hfmt (by decide)
    refine ⟨?_, ?_, ?_⟩
    · intro hfind hfmt
      unfold authenticateDevice
      rw [if_neg (hne req.token hfmt), if_neg (by simp [hn, hv]),
        if_neg (by simp [hfmt]), hfind]
    · intro lt hfind hfmt hinact
      unfold authenticateDevice
      rw [if_neg (hne req.token hfmt), if_neg (by simp [hn, hv]),
        if_neg (by simp [hfmt]), hfind]
      simp [hinact]
    · intro lt hfind hfmt hact hexp
      unfold authenticateDevice
      rw [if_neg (hne req.token hfmt), if_neg (by simp [hn, hv]),
        if_neg (by simp [hfmt]), hfind]
      simp [hact, LibToken.isExpired, hexp]

/-- Witness for C2: a malformed token is rejected as a 400-class error with
the store untouched, and an expired stored token is reported expired. -/
theorem c2_exchange_error_order_witness :
    (authenticateDevice exEnv exStore exReqBadTok 0).1.isBadRequest = true ∧
    authenticateDevice exEnv exStore exReq 2000000 =
      (.tokenExpired, exStore) :=
  ⟨((c2_exchange_error_order exEnv exStore exStore exReqBadTok 0).1
      (by decide)).1,
    ((c2_exchange_error_order exEnv exStore exStore exReq 2000000).2.1
      (by decide) (by decide)).2.2 exLibToken (by decide) (by decide) rfl
      (by decide)⟩

/-! ### C6: usage recording survives downstream failure -/

/-- C6: against a valid (stored, active, unexpired) library token, the
exchange records usage at step 3: after the call the stored token's usage
counter is exactly one greater and its last-used stamp is the call time,
whether the identity upsert (and hence token issuance) succeeded or threw;
and no failing outcome of the exchange carries an access or refresh token —
tokens exist only inside the success result. -/
theorem c6_usage_not_rolled_back (e : Env) (st : Store) (req : AuthRequest)
    (now : Nat) (lt : LibToken)
    (hn : req.appName ≠ "") (hv : req.version ≠ "")
    (hfmt : isValidTokenFormat req.token = true)
    (hfind : st.findByToken req.token = some lt)
    (hact : lt.isActive = true) (hexp : lt.isExpired now = false) :
    (∃ lt' : LibToken,
      (authenticateDevice e st req now).2.findByToken req.token = some lt' ∧
      lt'.usageCount = lt.usageCount + 1 ∧ lt'.lastUsed = some now) ∧
    (∀ r : DeviceAuthResult,
      (∃ tk : SignedToken, r.accessOf = some tk ∨ r.refreshOf = some tk) →
      ∃ s : DeviceAuthSuccess, r = .authOk s) := by
  constructor
  · have hne : req.token ≠ "" := by
      intro h
      rw [h] at hfmt
      exact absurd hfmt (by decide)
    have key := recordUsage_findByToken now hfind
    unfold authenticateDevice
    rw [if_neg hne, if_neg (by simp [hn, hv]), if_neg (by simp [hfmt]), hfind]
    simp only [hact, hexp, Bool.not_true, Bool.false_eq_true, if_false]
    cases hfoc : (st.recordUsage req.token now).findOrCreate
        { appName := strTrim req.appName, version := strTrim req.version,
          libraryToken := req.token, metadata := req.metadata } now with
    | error u =>
      exact ⟨{ lt with usageCount := lt.usageCount + 1, lastUsed := some now },
        key, rfl, rfl⟩
    | ok pair =>
      obtain ⟨ai, st2⟩ := pair
      have hlib := findOrCreate_libTokens hfoc
      refine ⟨{ lt with usageCount := lt.usageCount + 1, lastUsed := some now },
        ?_, rfl, rfl⟩
      show st2.findByToken req.token = _
      unfold Store.findByToken at key ⊢
      rw [hlib]
      exact key
  · intro r hr
    cases r with
    | authOk s => exact ⟨s, rfl⟩
    | missingToken => obtain ⟨tk, h | h⟩ := hr <;> cases h
    | missingAppInfo => obtain ⟨tk, h | h⟩ := hr <;> cases h
    | badTokenFormat => obtain ⟨tk, h | h⟩ := hr <;> cases h
    | invalidToken => obtain ⟨tk, h | h⟩ := hr <;> cases h
    | tokenDeactivated => obtain ⟨tk, h | h⟩ := hr <;> cases h
    | tokenExpired => obtain ⟨tk, h | h⟩ := hr <;> cases h
    | upsertFailed => obtain ⟨tk, h | h⟩ := hr <;> cases h

/-- Witness for C6: the exchange with an invalid version string fails at the
identity upsert, yet the stored token's usage counter has moved from 3
to 4. -/
theorem c6_usage_not_rolled_back_witness :
    ∃ lt' : LibToken,
      (authenticateDevice exEnv exStore exReqBadVersion 5000).2.findByToken
        exTokenValue = some lt' ∧
      lt'.usageCount = exLibToken.usageCount + 1 ∧ lt'.lastUsed = some 5000 :=
  (c6_usage_not_rolled_back exEnv exStore exReqBadVersion 5000 exLibToken
    (by decide) (by decide) (by decide) (by decide) rfl (by decide)).1

/-! ### C9: claims carried by issued device access tokens -/

theorem authOk_format {e : Env} {st : Store} {req : AuthRequest} {now : Nat}
    {s : DeviceAuthSuccess}
    (h : (authenticateDevice e st req now).1 = .authOk s) :
    isValidTokenFormat req.token = true := by
  by_contra hfmt
  unfold authenticateDevice at h
  by_cases h1 : req.token = ""
  · rw [if_pos h1] at h; simp at h
  · rw [if_neg h1] at h
    by_cases h2 : req.appName = "" ∨ req.version = ""
    · rw [if_pos h2] at h; simp at h
    · rw [if_neg h2, if_pos hfmt] at h
      simp at h

theorem authOk_shape {e : Env} {st : Store} {req : AuthRequest} {now : Nat}
    {s : DeviceAuthSuccess}
    (h : (authenticateDevice e st req now).1 = .authOk s) :
    ∃ ai : AppInfo, s.appInfo = ai ∧
      s.accessToken = generateDeviceToken e
        { appInfoId := some ai.id, appName := some ai.appName,
          version := some ai.version, libraryToken := some req.token }
        (now / 1000) ∧
      s.refreshToken = generateRefreshToken e
        { appInfoId := some ai.id, appName := some ai.appName,
          version := some ai.version } (some s.accessToken.claims)
        (now / 1000) := by
  unfold authenticateDevice at h
  by_cases h1 : req.token = ""
  · rw [if_pos h1] at h; simp at h
  rw [if_neg h1] at h
  by_cases h2 : req.appName = "" ∨ req.version = ""
  · rw [if_pos h2] at h; simp at h
  rw [if_neg h2] at h
  by_cases h3 : isValidTokenFormat req.token = true
  case neg => rw [if_pos h3] at h; simp at h
  rw [if_neg (not_not_intro h3)] at h
  cases hfb : st.findByToken req.token with
  | none => rw [hfb] at h; simp at h
  | some lt =>
    rw [hfb] at h
    dsimp only at h
    by_cases h4 : lt.isActive = true
    case neg => simp [h4] at h
    rw [if_neg (not_not_intro h4)] at h
    by_cases h5 : lt.isExpired now = true
    · rw [if_pos h5] at h; simp at h
    rw [if_neg h5] at h
    cases hfoc : (st.recordUsage req.token now).findOrCreate
        { appName := strTrim req.appName, version := strTrim req.version,
          libraryToken := req.token, metadata := req.metadata } now with
    | error u => rw [hfoc] at h; simp at h
    | ok pair =>
      obtain ⟨ai, st2⟩ := pair
      rw [hfoc] at h
      simp only [DeviceAuthResult.authOk.injEq] at h
      subst h
      exact ⟨ai, rfl, rfl, rfl⟩

theorem refresh_reissue_claims {e : Env} {p : ClaimSet} {dc : Option ClaimSet}
    {iatSec nowSec : Nat} {t : SignedToken}
    (ht : (generateNewAccessToken e (some (generateRefreshToken e p dc iatSec))
      nowSec).accessOf = some t) :
    t = generateDeviceToken e
      { appInfoId := p.appInfoId, appName := p.appName, version := p.version,
        libraryToken := p.libraryToken } nowSec := by
  unfold generateNewAccessToken jwtVerify generateRefreshToken at ht
  dsimp only at ht
  by_cases hlt : nowSec < iatSec + 7 * 86400
  · rw [if_pos (⟨rfl, hlt⟩ : _ ∧ _)] at ht
    simp only [RefreshResult.accessOf] at ht
    simp only [if_true, Option.some.injEq] at ht
    exact ht.symm
  · rw [if_neg (fun hc => hlt hc.2)] at ht
    simp [RefreshResult.accessOf] at ht

/-- C9 (corrected): the claim asserts **every** issued device access token
carries the owning LibraryToken's value; the token issued by the device
exchange does, but the refresh exchange re-issues an access token from the
refresh token's claims, which carry no `libraryToken` — concretely, the
token re-issued from `exStore`'s exchange has kind `"device"` and the
AppIdentity id, but its `libraryToken` claim is absent. -/
theorem c9_counterexample :
    ((generateNewAccessToken exEnv
        ((authenticateDevice exEnv exStore exReq 5000).1.refreshOf) 6).accessOf.map
      (fun t => (t.claims.typ, t.claims.libraryToken, t.claims.appInfoId))) =
      some ("device", none, some 7) := by decide

/-- C9 (amended): the access token issued by the device exchange carries
kind `"device"`, the owning library token's 32-character value and the
AppIdentity id; the access token re-issued by the refresh exchange carries
kind `"device"`, the AppIdentity id, app name and version, but **no**
`libraryToken` claim (the refresh token does not carry one). -/
theorem c9_device_token_claims (e : Env) (st : Store) (req : AuthRequest)
    (now : Nat) (s : DeviceAuthSuccess)
    (h : (authenticateDevice e st req now).1 = .authOk s) :
    s.accessToken.claims.typ = "device" ∧
    s.accessToken.claims.libraryToken = some req.token ∧
    strLen req.token = 32 ∧
    s.accessToken.claims.appInfoId = some s.appInfo.id ∧
    s.refreshToken.claims.libraryToken = none ∧
    (∀ (nowSec : Nat) (t : SignedToken),
      (generateNewAccessToken e (some s.refreshToken) nowSec).accessOf = some t →
      t.claims.typ = "device" ∧ t.claims.appInfoId = some s.appInfo.id ∧
      t.claims.appName = some s.appInfo.appName ∧
      t.claims.version = some s.appInfo.version ∧
      t.claims.libraryToken = none) := by
  obtain ⟨ai, hai, hacc, href⟩ := authOk_shape h
  have hfmt := authOk_format h
  have hlen : strLen req.token = 32 := by
    unfold isValidTokenFormat at hfmt
    simp only [Bool.and_eq_true, beq_iff_eq] at hfmt
    exact hfmt.1
  refine ⟨by rw [hacc]; rfl, by rw [hacc]; rfl, hlen, by rw [hacc, hai]; rfl,
    by rw [href]; rfl, ?_⟩
  intro nowSec t ht
  rw [href] at ht
  have := refresh_reissue_claims ht
  subst this
  rw [hai]
  exact ⟨rfl, rfl, rfl, rfl, rfl⟩

/-- Witness for C9's amended statement: the concrete exchange against
`exStore` and the subsequent refresh. -/
theorem c9_device_token_claims_witness :
    (authenticateDevice exEnv exStore exReq 5000).1 = .authOk exDeviceSuccess ∧
    exDeviceSuccess.accessToken.claims.libraryToken = some exTokenValue ∧
    exDeviceSuccess.refreshToken.claims.libraryToken = none :=
  ⟨by decide,
    (c9_device_token_claims exEnv exStore exReq 5000 exDeviceSuccess
      (by decide)).2.1,
    (c9_device_token_claims exEnv exStore exReq 5000 exDeviceSuccess
      (by decide)).2.2.2.2.1⟩

/-! ### C7: identity-upsert uniqueness -/

/-- C7: `findOrCreate` keys app identities by the
(name, version, owning token) tuple.  On success: an existing active match
has its auth counter incremented by exactly 1, its timestamp and metadata
refreshed, its key fields and the record count unchanged; a fresh tuple
creates exactly one new active record with counter 1; and the invariant
"at most one active record per tuple" is preserved. -/
theorem c7_identity_upsert (st : Store) (d : AppData) (now : Nat) :
    (∀ (i : Nat) (a ai : AppInfo) (st' : Store),
      findWithIndex (appMatch d) st.appInfos = some (i, a) →
      st.findOrCreate d now = .ok (ai, st') →
      ai.authCount = a.authCount + 1 ∧ ai.lastAuthAt = now ∧
      ai.appName = a.appName ∧ ai.version = a.version ∧
      ai.libraryToken = a.libraryToken ∧ ai.isActive = a.isActive ∧
      ai.metadata = a.metadata.merge d.metadata ∧
      st'.appInfos = st.appInfos.set i ai ∧
      st'.appInfos.length = st.appInfos.length) ∧
    (∀ (ai : AppInfo) (st' : Store),
      findWithIndex (appMatch d) st.appInfos = none →
      st.findOrCreate d now = .ok (ai, st') →
      ai.authCount = 1 ∧ ai.isActive = true ∧ ai.appName = d.appName ∧
      ai.version = d.version ∧ ai.libraryToken = d.libraryToken ∧
      st'.appInfos = st.appInfos ++ [ai]) ∧
    ((∀ n v t : String, st.activeMatches n v t ≤ 1) →
      ∀ (ai : AppInfo) (st' : Store), st.findOrCreate d now = .ok (ai, st') →
      ∀ n v t : String, st'.activeMatches n v t ≤ 1) := by
  refine ⟨?_, ?_, ?_⟩
  · intro i a ai st' hfind hok
    unfold Store.findOrCreate at hok
    rw [hfind] at hok
    dsimp only at hok
    by_cases hvalid : appInfoDocValid (upsertUpdate a d now) = true
    · rw [if_pos hvalid] at hok
      simp only [Except.ok.injEq, Prod.mk.injEq] at hok
      obtain ⟨hai, hst⟩ := hok
      subst hai
      subst hst
      exact ⟨rfl, rfl, rfl, rfl, rfl, rfl, rfl, rfl, by simp⟩
    · rw [if_neg hvalid] at hok
      cases hok
  · intro ai st' hfind hok
    unfold Store.findOrCreate at hok
    rw [hfind] at hok
    dsimp only at hok
    by_cases hvalid : appInfoDocValid (upsertNew st.nextId d now) = true
    · rw [if_pos hvalid] at hok
      simp only [Except.ok.injEq, Prod.mk.injEq] at hok
      obtain ⟨hai, hst⟩ := hok
      subst hai
      subst hst
      exact ⟨rfl, rfl, rfl, rfl, rfl, rfl⟩
    · rw [if_neg hvalid] at hok
      cases hok
  · intro hinv ai st' hok n v t
    unfold Store.findOrCreate at hok
    cases hfind : findWithIndex (appMatch d) st.appInfos with
    | some ia =>
      obtain ⟨i, a⟩ := ia
      rw [hfind] at hok
      dsimp only at hok
      by_cases hvalid : appInfoDocValid (upsertUpdate a d now) = true
      · rw [if_pos hvalid] at hok
        simp only [Except.ok.injEq, Prod.mk.injEq] at hok
        obtain ⟨hai, hst⟩ := hok
        subst hai
        subst hst
        have hinv' := hinv n v t
        obtain ⟨hget, hp⟩ := findWithIndex_some hfind
        unfold Store.activeMatches at hinv' ⊢
        show ((st.appInfos.set i (upsertUpdate a d now)).filter
          (tupleMatch n v t)).length ≤ 1
        rw [length_filter_set_eq st.appInfos i a (upsertUpdate a d now) hget
          (show tupleMatch n v t (upsertUpdate a d now) = tupleMatch n v t a
            from rfl)]
        exact hinv'
      · rw [if_neg hvalid] at hok
        cases hok
    | none =>
      rw [hfind] at hok
      dsimp only at hok
      by_cases hvalid : appInfoDocValid (upsertNew st.nextId d now) = true
      · rw [if_pos hvalid] at hok
        simp only [Except.ok.injEq, Prod.mk.injEq] at hok
        obtain ⟨hai, hst⟩ := hok
        subst hai
        subst hst
        have hall := findWithIndex_none_forall hfind
        have hinv' := hinv n v t
        unfold Store.activeMatches at hinv' ⊢
        show ((st.appInfos ++ [upsertNew st.nextId d now]).filter
          (tupleMatch n v t)).length ≤ 1
        rw [List.filter_append, List.length_append]
        by_cases hqu : tupleMatch n v t (upsertNew st.nextId d now) = true
        · have hkey : d.appName = n ∧ d.version = v ∧ d.libraryToken = t := by
            have hq := hqu
            unfold tupleMatch upsertNew at hq
            simp only [Bool.and_eq_true, beq_iff_eq] at hq
            exact ⟨hq.1.1.1, hq.1.1.2, hq.1.2⟩
          obtain ⟨hn', hv', ht'⟩ := hkey
          subst hn'
          subst hv'
          subst ht'
          have hnil : st.appInfos.filter
              (tupleMatch d.appName d.version d.libraryToken) = [] := by
            rw [List.filter_eq_nil_iff]
            intro x hx
            have hx' := hall x hx
            unfold appMatch at hx'
            simp [hx']
          rw [hnil]
          simp [hqu]
        · have hone : ([upsertNew st.nextId d now].filter (tupleMatch n v t)) =
              [] := by
            simp [hqu]
          rw [hone]
          simpa using hinv'
      · rw [if_neg hvalid] at hok
        cases hok

/-- Witness for C7: the creating upsert against the example store. -/
theorem c7_identity_upsert_witness :
    exAppInfo.authCount = 1 ∧ exAppInfo.isActive = true ∧
    exStoreAfterUpsert.appInfos = exStore.appInfos ++ [exAppInfo] := by
  have r := (c7_identity_upsert exStore exUpsertData 5).2.1 exAppInfo
    exStoreAfterUpsert (by decide) (by rfl)
  exact ⟨r.1, r.2.1, r.2.2.2.2.2⟩

/-! ### C8: library-token generation -/

theorem hexDigit_isLowerHex (n : Nat) (h : n < 16) :
    isLowerHexChar (hexDigit n) = true := by
  interval_cases n <;> decide

theorem foldrHex_length (bs : List Nat) :
    (bs.foldr (fun b acc => hexDigit (b / 16 % 16) :: hexDigit (b % 16) :: acc)
      []).length = 2 * bs.length := by
  induction bs with
  | nil => rfl
  | cons b t ih =>
    simp only [List.foldr, List.length_cons, ih]
    omega

theorem foldrHex_all (bs : List Nat) :
    (bs.foldr (fun b acc => hexDigit (b / 16 % 16) :: hexDigit (b % 16) :: acc)
      []).all isLowerHexChar = true := by
  induction bs with
  | nil => rfl
  | cons b t ih =>
    simp only [List.foldr, List.all_cons, ih, Bool.and_true]
    rw [hexDigit_isLowerHex (b / 16 % 16) (by omega),
      hexDigit_isLowerHex (b % 16) (by omega)]
    rfl

theorem bytesToHex_format {bs : List Nat} (h : bs.length = 16) :
    isValidTokenFormat (bytesToHex bs) = true := by
  have h1 : strLen (bytesToHex bs) = 32 := by
    show (bs.foldr _ []).length = 32
    rw [foldrHex_length, h]
  have h2 : (bytesToHex bs).data.all isLowerHexChar = true := foldrHex_all bs
  simp [isValidTokenFormat, h1, h2]

theorem genTokenLoop_some (tokens : List String) (stream : Nat → List Nat) :
    ∀ (fuel i : Nat) (s : String), genTokenLoop tokens stream i fuel = some s →
      tokens.contains s = false ∧
      ∃ j, i ≤ j ∧ j < i + fuel ∧ s = bytesToHex (stream j) := by
  intro fuel
  induction fuel with
  | zero => intro i s h; cases h
  | succ f ih =>
    intro i s h
    simp only [genTokenLoop] at h
    by_cases hc : tokens.contains (bytesToHex (stream i)) = true
    · rw [if_pos hc] at h
      obtain ⟨hnc, j, hj1, hj2, hj3⟩ := ih (i + 1) s h
      exact ⟨hnc, j, by omega, by omega, hj3⟩
    · rw [if_neg hc] at h
      cases h
      exact ⟨Bool.eq_false_iff.mpr hc, i, le_refl i, by omega, rfl⟩

theorem genTokenLoop_none (tokens : List String) (stream : Nat → List Nat) :
    ∀ (fuel i : Nat),
      (∀ j, i ≤ j → j < i + fuel →
        tokens.contains (bytesToHex (stream j)) = true) →
      genTokenLoop tokens stream i fuel = none := by
  intro fuel
  induction fuel with
  | zero => intro i _; rfl
  | succ f ih =>
    intro i hall
    simp only [genTokenLoop]
    rw [if_pos (hall i (le_refl i) (by omega))]
    exact ih (i + 1) (fun j hj1 hj2 => hall j (by omega) (by omega))

/-- C8: a token the generator returns is the hex rendering of one of at most
`maxTokenAttempts` (10) draws of 16 random bytes — exactly 32 lowercase hex
characters from 128 bits of randomness — and does not collide with any
stored token value; if all 10 candidate draws collide, the generator fails,
and the issuance service surfaces `TokenSpaceExhausted` with the store
unchanged (no duplicate is persisted). -/
theorem c8_token_issuance (st : Store) (stream : Nat → List Nat)
    (hlen : ∀ i, (stream i).length = 16) :
    (∀ s : String, generateUniqueToken st stream = some s →
      isValidTokenFormat s = true ∧
      (st.libTokens.map (fun lt => lt.token)).contains s = false ∧
      ∃ j, j < maxTokenAttempts ∧ s = bytesToHex (stream j)) ∧
    ((∀ j, j < maxTokenAttempts →
        (st.libTokens.map (fun lt => lt.token)).contains
          (bytesToHex (stream j)) = true) →
      generateUniqueToken st stream = none) ∧
    (∀ (adminId validityDays now : Nat) (ad : Admin),
      st.admins.find? (fun a => a.id == adminId) = some ad →
      ad.isActive = true → validityDays ≠ 0 → validityDays ≤ 365 →
      (∀ j, j < maxTokenAttempts →
        (st.libTokens.map (fun lt => lt.token)).contains
          (bytesToHex (stream j)) = true) →
      generateLibraryTokenSvc st stream adminId validityDays now =
        (.tokenSpaceExhausted, st)) := by
  have hnone : (∀ j, j < maxTokenAttempts →
      (st.libTokens.map (fun lt => lt.token)).contains
        (bytesToHex (stream j)) = true) →
      generateUniqueToken st stream = none := by
    intro hall
    exact genTokenLoop_none _ stream maxTokenAttempts 0
      (fun j _ hj2 => hall j (by simpa using hj2))
  refine ⟨?_, hnone, ?_⟩
  · intro s h
    unfold generateUniqueToken at h
    obtain ⟨hnc, j, _, hj2, hj3⟩ := genTokenLoop_some _ stream maxTokenAttempts
      0 s h
    subst hj3
    exact ⟨bytesToHex_format (hlen j), hnc, j, by simpa using hj2, rfl⟩
  · intro adminId validityDays now ad hfind hact hv1 hv2 hall
    unfold generateLibraryTokenSvc
    rw [hfind]
    dsimp only
    rw [if_neg (by simp [hact]), if_neg (by omega), hnone hall]

/-- Witness for C8: the deterministic stream produces a well-formed fresh
token, and the always-colliding stream exhausts the retries without
persisting anything. -/
theorem c8_token_issuance_witness :
    isValidTokenFormat "0102030405060708090a0b0c0d0e0f10" = true ∧
    generateLibraryTokenSvc exStore exCollidingStream 1 30 0 =
      (.tokenSpaceExhausted, exStore) := by
  constructor
  · exact ((c8_token_issuance exStore exStream (fun _ => rfl)).1
      "0102030405060708090a0b0c0d0e0f10" (by decide)).1
  · exact (c8_token_issuance exStore exCollidingStream (fun _ => rfl)).2.2
      1 30 0 exAdmin (by decide) rfl (by decide) (by decide)
      (fun j hj => by
        show (List.map (fun lt => lt.token) exStore.libTokens).contains
          (bytesToHex [0x01, 0x23, 0x45, 0x67, 0x89, 0xab, 0xcd, 0xef,
            0x01, 0x23, 0x45, 0x67, 0x89, 0xab, 0xcd, 0xef]) = true
        decide)

end Backend
